import Mathlib

/-!
Verification of the miamala_frank repository's service layer against its
natural-language specification.  The Python source (Django views and shared
utilities) is shallowly embedded: Decimal arithmetic becomes exact rational
arithmetic over `ℚ`, database tables become lists of records, and each
service method becomes a pure function from an explicit database state to a
result paired with the next state.
-/

namespace MiamalaFrank

/-! ### Generic helpers for row lookup and row replacement

Django's `Model.objects.get(pk=..)` / `instance.save()` pattern is embedded
as `List.find?` over an id predicate and a map that replaces every row whose
id matches with the saved instance. -/

/-- Replacing rows with id `i` by a constant record `x'` (whose id is `i`)
commutes with looking the id up: the lookup returns the replacement exactly
when a row with that id existed. -/
theorem find?_replace_same {α : Type} (idOf : α → ℕ) (l : List α) (i : ℕ) (x' : α)
    (hx' : idOf x' = i) :
    (l.map (fun x => if idOf x == i then x' else x)).find? (fun x => idOf x == i)
      = (l.find? (fun x => idOf x == i)).map (fun _ => x') := by
  induction l with
  | nil => rfl
  | cons h t ih =>
    by_cases hh : idOf h = i
    · rw [List.map_cons, if_pos (by simp [hh]),
        List.find?_cons_of_pos _ (by simp [hx']),
        List.find?_cons_of_pos _ (by simp [hh])]
      rfl
    · rw [List.map_cons, if_neg (by simp [hh]),
        List.find?_cons_of_neg _ (by simp [hh]),
        List.find?_cons_of_neg _ (by simp [hh]), ih]

/-- Replacing rows with id `i` does not affect a lookup of a different id `j`. -/
theorem find?_replace_other {α : Type} (idOf : α → ℕ) (l : List α) (i j : ℕ) (x' : α)
    (hx' : idOf x' = i) (hij : j ≠ i) :
    (l.map (fun x => if idOf x == i then x' else x)).find? (fun x => idOf x == j)
      = l.find? (fun x => idOf x == j) := by
  induction l with
  | nil => rfl
  | cons h t ih =>
    by_cases hh : idOf h = i
    · rw [List.map_cons, if_pos (by simp [hh]),
        List.find?_cons_of_neg _ (by simp [hx', Ne.symm hij]),
        List.find?_cons_of_neg _ (by simp [hh, Ne.symm hij]), ih]
    · by_cases hj : idOf h = j
      · rw [List.map_cons, if_neg (by simp [hh]),
          List.find?_cons_of_pos _ (by simp [hj]),
          List.find?_cons_of_pos _ (by simp [hj])]
      · rw [List.map_cons, if_neg (by simp [hh]),
          List.find?_cons_of_neg _ (by simp [hj]),
          List.find?_cons_of_neg _ (by simp [hj]), ih]

/-! ### Shared utilities (`src/utils/util_functions.py`)

`format_number` renders a `Decimal`; Decimals are finite decimal fractions,
embedded here as `ℚ`.  Python string formatting is rebuilt on `List Char`. -/

/-- Decimal digits of `n`, least significant first, driven by a fuel
argument so that the recursion is structural. -/
def natDigitsRev : ℕ → ℕ → List ℕ
  | 0, _ => []
  | _ + 1, 0 => []
  | fuel + 1, n + 1 => ((n + 1) % 10) :: natDigitsRev fuel ((n + 1) / 10)

/-- Decimal digit characters of `n`, most significant first (`str(n)` for a
natural number). -/
def natPlainChars (n : ℕ) : List Char :=
  if n = 0 then ['0'] else ((natDigitsRev n n).reverse.map Nat.digitChar)

/-- Thousands grouping of `f"{n:,}"`, working on the reversed
(least-significant-first) digit list: a comma after every third digit. -/
def group3 : List Char → List Char
  | [] => []
  | [a] => [a]
  | [a, b] => [a, b]
  | [a, b, c] => [a, b, c]
  | a :: b :: c :: d :: rest => a :: b :: c :: ',' :: group3 (d :: rest)

/-- Digit characters of `n` with thousands separators (`f"{n:,}"`). -/
def natCommaChars (n : ℕ) : List Char :=
  (group3 (natPlainChars n).reverse).reverse

/-- Rendering of `f"{z:,}"` for an integer `z`. -/
def intCommaStr (z : ℤ) : String :=
  ⟨(if z < 0 then ['-'] else []) ++ natCommaChars z.natAbs⟩

/-- Model of Python's `str.rstrip(c)`: drop trailing copies of `c`. -/
def rstripChar (l : List Char) (c : Char) : List Char :=
  (l.reverse.dropWhile (fun a => a == c)).reverse

/-- Rounding used by `Decimal.__format__` with a fixed number of decimal
places: round half to even. -/
def roundHalfEven (q : ℚ) : ℤ :=
  if q - ⌊q⌋ < 1/2 then ⌊q⌋
  else if 1/2 < q - ⌊q⌋ then ⌊q⌋ + 1
  else if ⌊q⌋ % 2 = 0 then ⌊q⌋ else ⌊q⌋ + 1

/-- Embedding of `format_number(value)` from `src/utils/util_functions.py`:
whole numbers through `f"{int(value):,}"`; values with one decimal digit
through `f"{value:.1f}".rstrip('0').rstrip('.')`; everything else through
`f"{value:.2f}".rstrip('0').rstrip('.')`.  The `:.1f` / `:.2f` renderings
carry no thousands separators; the sign comes from the value itself. -/
def format_number (v : ℚ) : String :=
  if v.den = 1 then intCommaStr v.num
  else if (10 * v).den = 1 then
    let a := (10 * v).num.natAbs
    ⟨rstripChar (rstripChar
        ((if v < 0 then ['-'] else []) ++ natPlainChars (a / 10)
          ++ '.' :: natPlainChars (a % 10)) '0') '.'⟩
  else
    let a := (roundHalfEven (100 * |v|)).natAbs
    ⟨rstripChar (rstripChar
        ((if v < 0 then ['-'] else []) ++ natPlainChars (a / 100)
          ++ '.' :: [Nat.digitChar (a / 10 % 10), Nat.digitChar (a % 10)]) '0') '.'⟩

example : format_number 1000 = "1,000" := by with_unfolding_all decide
example : format_number (3001/2) = "1500.5" := by with_unfolding_all decide
example : format_number 1500 = "1,500" := by with_unfolding_all decide
example : format_number (150023/100) = "1500.23" := by with_unfolding_all decide
example : format_number (-1234567) = "-1,234,567" := by with_unfolding_all decide
example : format_number (6/5) = "1.2" := by with_unfolding_all decide
example : format_number (1/8) = "0.12" := by with_unfolding_all decide
example : format_number (-1/1000) = "-0" := by with_unfolding_all decide

/-! ### Column filtering (`filter_items` in `src/utils/util_functions.py`) -/

/-- Numeric value of a list of decimal digit characters (most significant
first), as used by `float()` on an `isdigit()`-checked string. -/
def digitsVal (l : List Char) : ℕ :=
  l.foldl (fun a c => 10 * a + (c.toNat - '0'.toNat)) 0

/-- Model of Python's `str.isdigit()`: nonempty and all digit characters. -/
def allDigits (l : List Char) : Bool :=
  !l.isEmpty && l.all (fun c => c.isDigit)

/-- Model of `str.replace('.', '', 1)`: remove the first dot, if any. -/
def removeFirstDot : List Char → List Char
  | [] => []
  | c :: rest => if c == '.' then rest else c :: removeFirstDot rest

/-- Model of `s in t` on Python strings: contiguous substring containment. -/
def containsSub (needle : List Char) : List Char → Bool
  | [] => needle.isEmpty
  | c :: rest => needle.isPrefixOf (c :: rest) || containsSub needle rest

/-- Model of Python `float()` restricted to the plain decimal forms the
filters produce: optional sign, integer digits, optional fractional digits,
at least one digit overall.  Exponent, infinity, nan and underscore forms
are outside the model. -/
def parseDecimal (l : List Char) : Option ℚ :=
  let core : List Char → Option ℚ := fun l =>
    let ip := l.takeWhile (fun c => c.isDigit)
    let rest := l.dropWhile (fun c => c.isDigit)
    match rest with
    | [] => if ip.isEmpty then none else some (digitsVal ip)
    | '.' :: fp =>
      if fp.all (fun c => c.isDigit) && !(ip.isEmpty && fp.isEmpty) then
        some ((digitsVal ip : ℚ) + (digitsVal fp : ℚ) / (10 ^ fp.length : ℕ))
      else none
    | _ => none
  match l with
  | '-' :: rest => (core rest).map (fun q => -q)
  | '+' :: rest => core rest
  | _ => core l

/-- Condition of the `column_search.startswith('-') and
column_search[1:].replace(',', '').isdigit()` branch. -/
def leCond (cs : List Char) : Bool :=
  cs.head? == some '-' && allDigits ((cs.drop 1).filter (fun c => !(c == ',')))

/-- Condition of the `column_search.endswith('-') and
column_search[:-1].replace(',', '').isdigit()` branch. -/
def geCond (cs : List Char) : Bool :=
  cs.getLast? == some '-' && allDigits (cs.dropLast.filter (fun c => !(c == ',')))

/-- Condition of the `column_search.replace(',', '').replace('.', '',
1).isdigit()` branch (plain integer or decimal). -/
def eqCond (cs : List Char) : Bool :=
  allDigits (removeFirstDot (cs.filter (fun c => !(c == ','))))

/-- Filter kinds of `filter_items`. -/
inductive FilterKind
  | exact
  | numeric
  | contains
deriving DecidableEq

/-- Embedding of `filter_items(column_field, column_search, item,
filter_type)` from `src/utils/util_functions.py`, applied to the row's
already-stringified field value.  The numeric branch parses the field value
(`float(column_value)`, empty string meaning `0.0`, parse failure meaning
`False` via the `except ValueError` handler); when none of the three
numeric sub-forms applies, control reaches the final
`column_search_lower in column_value` substring test. -/
def filter_items (columnValue columnSearch : String) (ft : FilterKind) : Bool :=
  let cv := columnValue.toLower
  let csl := columnSearch.toLower
  match ft with
  | .exact => csl == cv
  | .numeric =>
    match (if cv.data.isEmpty then some 0 else parseDecimal cv.data) with
    | none => false
    | some itemValue =>
      let cs := columnSearch.data
      if leCond cs then
        decide (itemValue ≤ (digitsVal ((cs.drop 1).filter (fun c => !(c == ','))) : ℚ))
      else if geCond cs then
        decide ((digitsVal (cs.dropLast.filter (fun c => !(c == ','))) : ℚ) ≤ itemValue)
      else if eqCond cs then
        match parseDecimal (cs.filter (fun c => !(c == ','))) with
        | some target => decide (itemValue = target)
        | none => false
      else containsSub csl.data cv.data
  | .contains => containsSub csl.data cv.data

example : filter_items "100" "100-" .numeric = true := by with_unfolding_all decide
example : filter_items "150" "100-" .numeric = true := by with_unfolding_all decide
example : filter_items "50" "100-" .numeric = false := by with_unfolding_all decide
example : filter_items "50" "-100" .numeric = true := by with_unfolding_all decide
example : filter_items "150" "-100" .numeric = false := by with_unfolding_all decide
example : filter_items "100" "100" .numeric = true := by with_unfolding_all decide
example : filter_items "150" "100" .numeric = false := by with_unfolding_all decide
example : filter_items "1,500.5" "1500.5" .numeric = false := by with_unfolding_all decide
example : filter_items "1.5" "." .numeric = true := by with_unfolding_all decide
example : filter_items "abc" "5" .numeric = false := by with_unfolding_all decide

/-! ### Dashboard utilities (`src/apps/dashboard/views.py`) -/

/-- Rendering of `f"{change:+.1f}%"`: explicit sign, one decimal place with
half-even rounding, then a percent sign. -/
def signedOneDec (q : ℚ) : String :=
  let w := (roundHalfEven (10 * |q|)).natAbs
  ⟨(if q < 0 then ['-'] else ['+']) ++ natPlainChars (w / 10)
    ++ '.' :: natPlainChars (w % 10) ++ ['%']⟩

/-- Embedding of `DashboardUtilityService.percentage_change(current,
previous)` from `src/apps/dashboard/views.py`. -/
def percentage_change (current previous : ℚ) : String :=
  if previous = 0 then (if 0 < current then "+100%" else "0.0%")
  else signedOneDec ((current - previous) / previous * 100)

example : percentage_change 0 0 = "0.0%" := by with_unfolding_all decide
example : percentage_change 100 0 = "+100%" := by with_unfolding_all decide
example : percentage_change 150 100 = "+50.0%" := by with_unfolding_all decide
example : percentage_change 50 100 = "-50.0%" := by with_unfolding_all decide
example : percentage_change 1234 1000 = "+23.4%" := by with_unfolding_all decide

/-! ### Shop domain records (`src/apps/shops/models.py`) -/

/-- Row of the `Product` table (the fields the sales services read). -/
structure ProductR where
  id : ℕ
  shopId : ℕ
  name : String
  qty : ℚ
  cost : ℚ
  price : ℚ
  is_deleted : Bool
deriving DecidableEq

/-- Row of the `Cart` table. -/
structure CartR where
  id : ℕ
  userId : ℕ
  productId : ℕ
  qty : ℚ
deriving DecidableEq

/-- Row of the `Sales` table (sale header). -/
structure SaleR where
  id : ℕ
  userId : ℕ
  shopId : ℕ
  amount : ℚ
  profit : ℚ
  customer : String
  comment : Option String
deriving DecidableEq

/-- Row of the `Sale_items` table (sale line item). -/
structure SaleItemR where
  id : ℕ
  saleId : ℕ
  productId : ℕ
  price : ℚ
  qty : ℚ
  profit : ℚ
deriving DecidableEq

/-- Database state touched by the sales services. -/
structure DB where
  products : List ProductR
  carts : List CartR
  sales : List SaleR
  sale_items : List SaleItemR
deriving DecidableEq

/-- Lookup of `Product.objects.get(pk=product_id)` via a foreign key. -/
def findProduct (ps : List ProductR) (pid : ℕ) : Option ProductR :=
  ps.find? (fun p => p.id == pid)

/-- Saving a fetched product instance: every row with its id takes the
instance's column values. -/
def saveProduct (ps : List ProductR) (p' : ProductR) : List ProductR :=
  ps.map (fun q => if q.id == p'.id then p' else q)

/-! ### Sales services (`SalesManagementService` in `src/apps/shops/views.py`) -/

/-- Result of `SalesManagementService.add_to_cart`.  The failure message
`f'Qty exceeded available stock ({product.qty}).'` is carried as the stock
value; the success payload carries the added quantity and the cart badge
string (`str(cart_count)` below ten, the literal `"9+"` otherwise). -/
inductive AddCartResult
  | productMissing
  | qtyExceeded (stock : ℚ)
  | added (qty : ℚ) (badge : String)
deriving DecidableEq

/-- Embedding of `SalesManagementService.add_to_cart(request, product_id,
qty)`: fetch the non-deleted product, reject when the requested quantity
exceeds its stock, otherwise `Cart.objects.get_or_create(product=product,
user=request.user, defaults={'qty': product_qty})` and report the user's
cart count.  `newCartId` stands for the id the database would assign to a
newly created cart row. -/
def add_to_cart (db : DB) (uid pid : ℕ) (qty : ℚ) (newCartId : ℕ) :
    AddCartResult × DB :=
  match db.products.find? (fun p => p.id == pid && !p.is_deleted) with
  | none => (.productMissing, db)
  | some product =>
    if product.qty < qty then (.qtyExceeded product.qty, db)
    else
      let carts' :=
        if db.carts.any (fun c => c.productId == product.id && c.userId == uid) then
          db.carts
        else db.carts ++ [⟨newCartId, uid, product.id, qty⟩]
      let cnt := (carts'.filter (fun c => c.userId == uid)).length
      (.added qty (if cnt < 10 then toString cnt else "9+"), { db with carts := carts' })

/-- Resolution of each cart line's `item.product` foreign key (always
succeeds against an intact database). -/
def resolveCart (ps : List ProductR) : List CartR → Option (List (CartR × ProductR))
  | [] => some []
  | c :: rest =>
    match findProduct ps c.productId, resolveCart ps rest with
    | some p, some r => some ((c, p) :: r)
    | _, _ => none

/-- Running total `grand_amount`: sum of `item.product.price * item.qty`. -/
def cartAmount (l : List (CartR × ProductR)) : ℚ :=
  (l.map (fun x => x.2.price * x.1.qty)).sum

/-- Running total `profit_count`: sum of
`(item.product.price - item.product.cost) * item.qty`. -/
def cartProfit (l : List (CartR × ProductR)) : ℚ :=
  (l.map (fun x => (x.2.price - x.2.cost) * x.1.qty)).sum

/-- The set `cart_shops`, as the deduplicated list of shop ids. -/
def cartShops (l : List (CartR × ProductR)) : List ℕ :=
  (l.map (fun x => x.2.shopId)).dedup

/-- The list `qty_products`: names of the products whose cart line requests
more than the available stock, in cart order. -/
def shortNames (l : List (CartR × ProductR)) : List String :=
  (l.filter (fun x => x.2.qty < x.1.qty)).map (fun x => x.2.name)

/-- The stock-decrement loop `item.product.qty -= item.qty;
item.product.save()`: each line writes back its own product snapshot. -/
def applySale (ps : List ProductR) (l : List (CartR × ProductR)) : List ProductR :=
  l.foldl (fun acc x => saveProduct acc { x.2 with qty := x.2.qty - x.1.qty }) ps

/-- The `Sale_items.objects.create(...)` loop; `base` stands for the first
database-assigned line-item id. -/
def mkSaleItems (saleId base : ℕ) : List (CartR × ProductR) → List SaleItemR
  | [] => []
  | x :: rest =>
    ⟨base, saleId, x.2.id, x.2.price, x.1.qty, (x.2.price - x.2.cost) * x.1.qty⟩
      :: mkSaleItems saleId (base + 1) rest

/-- Result of `SalesManagementService.checkout`.  Failure constructors carry
the distinguishing payload of their message; `databaseError` stands for the
`except` handler (unreachable while foreign keys resolve). -/
inductive CheckoutResult
  | emptyCart
  | notSameShop
  | notEnoughStock (names : List String)
  | databaseError
  | ok
deriving DecidableEq

/-- Embedding of `SalesManagementService.checkout(request, customer,
comment)` from `src/apps/shops/views.py` lines 490-551.  `saleId` and
`itemBase` stand for the database-assigned ids of the new sale header and
its first line item. -/
def checkout (db : DB) (uid saleId itemBase : ℕ) (customer comment : String) :
    CheckoutResult × DB :=
  let full_cart := db.carts.filter (fun c => c.userId == uid)
  if full_cart.isEmpty then (.emptyCart, db)
  else
    match resolveCart db.products full_cart with
    | none => (.databaseError, db)
    | some resolved =>
      if 1 < (cartShops resolved).length then (.notSameShop, db)
      else if !(shortNames resolved).isEmpty then
        (.notEnoughStock (shortNames resolved), db)
      else
        let sale : SaleR :=
          { id := saleId, userId := uid,
            shopId := (cartShops resolved).headD 0,
            amount := cartAmount resolved,
            profit := cartProfit resolved,
            customer := if customer.trim = "" then "n/a" else customer.trim,
            comment := if comment.trim = "" then none else some comment.trim }
        (.ok, { products := applySale db.products resolved,
                carts := db.carts.filter (fun c => !(c.userId == uid)),
                sales := db.sales ++ [sale],
                sale_items := db.sale_items ++ mkSaleItems saleId itemBase resolved })

/-- Result of `SalesManagementService.remove_sale_item`: the success
payloads distinguish `'items': 0` (parent sale deleted) from `'items': 1`. -/
inductive RemoveItemResult
  | saleDeleted
  | itemRemoved
  | failure
deriving DecidableEq

/-- Embedding of `SalesManagementService.remove_sale_item(item_id)` from
`src/apps/shops/views.py` lines 553-585: restore the product quantity,
subtract `item.price * item.qty` from the sale amount, delete the line, and
delete the sale when no line of it remains. -/
def remove_sale_item (db : DB) (itemId : ℕ) : RemoveItemResult × DB :=
  match db.sale_items.find? (fun i => i.id == itemId) with
  | none => (.failure, db)
  | some item =>
    match db.sales.find? (fun s => s.id == item.saleId) with
    | none => (.failure, db)
    | some sale =>
      match findProduct db.products item.productId with
      | none => (.failure, db)
      | some product =>
        let products' := saveProduct db.products { product with qty := product.qty + item.qty }
        let newSale : SaleR := { sale with amount := sale.amount - item.price * item.qty }
        let sales' := db.sales.map (fun s => if s.id == sale.id then newSale else s)
        let items' := db.sale_items.filter (fun i => !(i.id == itemId))
        if (items'.filter (fun i => i.saleId == sale.id)).isEmpty then
          let db' : DB :=
            { db with
              products := products',
              sales := sales'.filter (fun s => !(s.id == sale.id)),
              sale_items := items' }
          (.saleDeleted, db')
        else
          let db' : DB :=
            { db with products := products', sales := sales', sale_items := items' }
          (.itemRemoved, db')

/-! ### Staff management (`UserManagementService` in `src/apps/users/views.py`) -/

/-- Row of the `CustomUser` table (the fields the management service
touches). -/
structure UserR where
  id : ℕ
  username : String
  fullname : String
  phone : String
  is_admin : Bool
  deleted : Bool
  is_active : Bool
  password : String
deriving DecidableEq

/-- State touched by the staff-management service: users and cart rows. -/
structure UDB where
  users : List UserR
  carts : List CartR
deriving DecidableEq

/-- Result shape of the staff-management mutations. -/
inductive OpResult
  | success
  | failure
deriving DecidableEq

/-- Embedding of `UserManagementService._get_active_user(user_id)`:
`CustomUser.objects.get(pk=user_id, deleted=False, is_admin=False)`. -/
def getActiveUser (users : List UserR) (uid : ℕ) : Option UserR :=
  users.find? (fun u => u.id == uid && !u.deleted && !u.is_admin)

/-- Saving a fetched user instance: every row with its id takes the
instance's column values. -/
def saveUser (users : List UserR) (u' : UserR) : List UserR :=
  users.map (fun u => if u.id == u'.id then u' else u)

/-- Embedding of `UserManagementService.update_user(post_data, user_id)`.
The `UserUpdateForm` validation and field assignment (defined in
`src/apps/users/forms.py`) is abstracted as `applyForm`: `some u'` when the
form is valid and saves the updated instance `u'`, `none` when invalid. -/
def update_user (applyForm : UserR → Option UserR) (db : UDB) (uid : ℕ) :
    OpResult × UDB :=
  match getActiveUser db.users uid with
  | none => (.failure, db)
  | some u =>
    match applyForm u with
    | some u' => (.success, { db with users := saveUser db.users u' })
    | none => (.failure, db)

/-- Embedding of `UserManagementService.delete_user(user_id)`: clear the
user's cart rows, then soft delete. -/
def delete_user (db : UDB) (uid : ℕ) : OpResult × UDB :=
  match getActiveUser db.users uid with
  | none => (.failure, db)
  | some u =>
    (.success, { users := saveUser db.users { u with deleted := true },
                 carts := db.carts.filter (fun c => !(c.userId == u.id)) })

/-- Embedding of `UserManagementService.toggle_user_status(user_id)`. -/
def toggle_user_status (db : UDB) (uid : ℕ) : OpResult × UDB :=
  match getActiveUser db.users uid with
  | none => (.failure, db)
  | some u =>
    (.success, { db with users := saveUser db.users { u with is_active := !u.is_active } })

/-- Embedding of `UserManagementService.reset_user_password(user_id)`:
`user.set_password(user.username.upper())`.  Django's password hashing is
abstracted as the parameter `hash`. -/
def reset_user_password (hash : String → String) (db : UDB) (uid : ℕ) :
    OpResult × UDB :=
  match getActiveUser db.users uid with
  | none => (.failure, db)
  | some u =>
    (.success, { db with users := saveUser db.users { u with password := hash u.username.toUpper } })

/-! ### Debts and loans (`DebtsService` / `LoansService` in
`src/apps/miamala/views.py`) -/

/-- Row of the `Debts` table (the fields `update_debt` touches). -/
structure DebtR where
  id : ℕ
  name : String
  amount : ℚ
  paid : ℚ
  description : Option String
deriving DecidableEq

/-- Row of the `Loans` table (the fields `update_loan` touches). -/
structure LoanR where
  id : ℕ
  name : String
  amount : ℚ
  paid : ℚ
  description : Option String
deriving DecidableEq

/-- Result shape of the debt/loan updates. -/
inductive LedgerResult
  | notFound
  | nameTooShort
  | success
deriving DecidableEq

/-- Embedding of `DebtsService.update_debt(post_data, debt_id)` from
`src/apps/miamala/views.py` lines 212-246.  `paid` is the optional `'paid'`
form value: `none` for an absent or empty string (falsy in `if debt_paid:`),
`some v` for a string parsing to the decimal `v`. -/
def update_debt (debts : List DebtR) (debtId : ℕ) (names : String)
    (paid : Option ℚ) (describe : String) : LedgerResult × List DebtR :=
  match debts.find? (fun d => d.id == debtId) with
  | none => (.notFound, debts)
  | some debt =>
    if names.trim.length < 3 then (.nameTooShort, debts)
    else
      let debt1 :=
        match paid with
        | some v => if v < 0 then { debt with paid := debt.paid + |v| }
                    else { debt with amount := debt.amount + v }
        | none => debt
      let debt2 :=
        { debt1 with name := names.trim,
                     description := if describe.trim = "" then none else some describe.trim }
      (.success, debts.map (fun d => if d.id == debtId then debt2 else d))

/-- Embedding of `LoansService.update_loan(post_data, loan_id)` from
`src/apps/miamala/views.py` lines 297-331 (same logic as `update_debt`). -/
def update_loan (loans : List LoanR) (loanId : ℕ) (names : String)
    (paid : Option ℚ) (describe : String) : LedgerResult × List LoanR :=
  match loans.find? (fun d => d.id == loanId) with
  | none => (.notFound, loans)
  | some loan =>
    if names.trim.length < 3 then (.nameTooShort, loans)
    else
      let loan1 :=
        match paid with
        | some v => if v < 0 then { loan with paid := loan.paid + |v| }
                    else { loan with amount := loan.amount + v }
        | none => loan
      let loan2 :=
        { loan1 with name := names.trim,
                     description := if describe.trim = "" then none else some describe.trim }
      (.success, loans.map (fun d => if d.id == loanId then loan2 else d))

/-! ### Supporting lemmas -/

/-- A successful `find?` on an id predicate pins the found record's id. -/
theorem findProduct_id {ps : List ProductR} {pid : ℕ} {p : ProductR}
    (h : findProduct ps pid = some p) : p.id = pid := by
  have := List.find?_some h
  simpa using this

/-- A successful lookup by id pins the found record's id value. -/
theorem find?_id {α : Type} (idOf : α → ℕ) {l : List α} {i : ℕ} {x : α}
    (h : l.find? (fun y => idOf y == i) = some x) : idOf x = i := by
  simpa using List.find?_some h

/-- Looking an id up after all rows carrying it were filtered out finds
nothing. -/
theorem find?_filter_out {α : Type} (idOf : α → ℕ) (l : List α) (i : ℕ) :
    (l.filter (fun x => !(idOf x == i))).find? (fun x => idOf x == i) = none := by
  rw [List.find?_eq_none]
  intro x hx
  have hmem := (List.mem_filter.1 hx).2
  simp only [Bool.not_eq_eq_eq_not, Bool.not_true, beq_eq_false_iff_ne] at hmem
  simp [hmem]

/-! ### Claim theorems -/

/-- C8: the dashboard percentage-change computation returns `"+100%"` when
the previous value is zero and the current one is positive, `"0.0%"` when
the previous value is zero and the current one is not positive, and
otherwise `(current − previous) / previous × 100` rendered with an explicit
leading sign and exactly one decimal place, e.g. `+50.0%` for (150, 100)
and `-50.0%` for (50, 100). -/
theorem C8_percentage_change_spec :
    (∀ current previous : ℚ, previous = 0 → 0 < current →
        percentage_change current previous = "+100%") ∧
    (∀ current previous : ℚ, previous = 0 → ¬ 0 < current →
        percentage_change current previous = "0.0%") ∧
    (∀ current previous : ℚ, previous ≠ 0 →
        percentage_change current previous
          = signedOneDec ((current - previous) / previous * 100)) ∧
    percentage_change 150 100 = "+50.0%" ∧
    percentage_change 50 100 = "-50.0%" := by
  refine ⟨?_, ?_, ?_, ?_, ?_⟩
  · intro c p hp hc
    simp [percentage_change, hp, hc]
  · intro c p hp hc
    simp [percentage_change, hp, hc]
  · intro c p hp
    simp [percentage_change, hp]
  · with_unfolding_all decide
  · with_unfolding_all decide

/-- Witness for C8 at the spec's concrete inputs. -/
theorem C8_percentage_change_witness :
    percentage_change 100 0 = "+100%" ∧ percentage_change 0 0 = "0.0%" ∧
    percentage_change 150 100 = "+50.0%" :=
  ⟨C8_percentage_change_spec.1 100 0 rfl (by norm_num),
   C8_percentage_change_spec.2.1 0 0 rfl (by norm_num),
   C8_percentage_change_spec.2.2.2.1⟩

/-- C4: on an existing debt and an existing loan, an update supplying a
non-empty `paid` value adds its absolute value to the paid total (leaving
the principal amount unchanged) when the value is negative, and adds the
value to the principal amount (leaving the paid total unchanged) when it is
positive.  The update must pass the name-length guard, hence the `hn`
hypothesis. -/
theorem C4_update_paid_delta
    (debts : List DebtR) (loans : List LoanR) (debtId loanId : ℕ)
    (names describe : String) (v : ℚ)
    (debt : DebtR) (hd : debts.find? (fun d => d.id == debtId) = some debt)
    (loan : LoanR) (hl : loans.find? (fun d => d.id == loanId) = some loan)
    (hn : ¬ names.trim.length < 3) :
    (v < 0 →
      ((update_debt debts debtId names (some v) describe).2.find?
          (fun d => d.id == debtId)).map (fun d => (d.paid, d.amount))
        = some (debt.paid + |v|, debt.amount) ∧
      ((update_loan loans loanId names (some v) describe).2.find?
          (fun d => d.id == loanId)).map (fun d => (d.paid, d.amount))
        = some (loan.paid + |v|, loan.amount)) ∧
    (0 < v →
      ((update_debt debts debtId names (some v) describe).2.find?
          (fun d => d.id == debtId)).map (fun d => (d.paid, d.amount))
        = some (debt.paid, debt.amount + v) ∧
      ((update_loan loans loanId names (some v) describe).2.find?
          (fun d => d.id == loanId)).map (fun d => (d.paid, d.amount))
        = some (loan.paid, loan.amount + v)) := by
  have hdid : debt.id = debtId := by simpa using List.find?_some hd
  have hlid : loan.id = loanId := by simpa using List.find?_some hl
  constructor
  · intro hv
    constructor
    · simp only [update_debt, hd]
      rw [if_neg hn]
      rw [find?_replace_same (fun d => d.id) debts debtId _ (by split <;> simp [hdid]), hd]
      simp [hv]
    · simp only [update_loan, hl]
      rw [if_neg hn]
      rw [find?_replace_same (fun d => d.id) loans loanId _ (by split <;> simp [hlid]), hl]
      simp [hv]
  · intro hv
    constructor
    · simp only [update_debt, hd]
      rw [if_neg hn]
      rw [find?_replace_same (fun d => d.id) debts debtId _ (by split <;> simp [hdid]), hd]
      simp [not_lt.2 hv.le]
    · simp only [update_loan, hl]
      rw [if_neg hn]
      rw [find?_replace_same (fun d => d.id) loans loanId _ (by split <;> simp [hlid]), hl]
      simp [not_lt.2 hv.le]

/-- Witness for C4: a concrete debt and loan, one repayment of −30 and one
additional borrowing of +30. -/
theorem C4_update_paid_delta_witness :
    (((update_debt [⟨1, "Ali", 100, 20, none⟩] 1 "Ali" (some (-30)) "").2.find?
        (fun d => d.id == 1)).map (fun d => (d.paid, d.amount))
      = some ((20 : ℚ) + |(-30 : ℚ)|, (100 : ℚ))) ∧
    (((update_loan [⟨1, "Bob", 100, 20, none⟩] 1 "Bob" (some 30) "").2.find?
        (fun d => d.id == 1)).map (fun d => (d.paid, d.amount))
      = some ((20 : ℚ), (100 : ℚ) + 30)) :=
  ⟨(C4_update_paid_delta [⟨1, "Ali", 100, 20, none⟩] [⟨1, "Bob", 100, 20, none⟩]
      1 1 "Ali" "" (-30) ⟨1, "Ali", 100, 20, none⟩ rfl ⟨1, "Bob", 100, 20, none⟩ rfl
      (by with_unfolding_all decide)).1 (by norm_num) |>.1,
   (C4_update_paid_delta [⟨1, "Ali", 100, 20, none⟩] [⟨1, "Bob", 100, 20, none⟩]
      1 1 "Bob" "" 30 ⟨1, "Ali", 100, 20, none⟩ rfl ⟨1, "Bob", 100, 20, none⟩ rfl
      (by with_unfolding_all decide)).2 (by norm_num) |>.2⟩

/-- C10: every staff-management mutation resolves its target through the
non-deleted, non-admin lookup, so when every user carrying the target id is
an admin account or an already soft-deleted account, each mutation returns
a failure and leaves the state (users and carts, hence passwords and active
flags) unchanged. -/
theorem C10_staff_mutations_guarded
    (db : UDB) (uid : ℕ) (applyForm : UserR → Option UserR)
    (hash : String → String)
    (htarget : ∀ u ∈ db.users, u.id = uid → u.is_admin = true ∨ u.deleted = true) :
    update_user applyForm db uid = (.failure, db) ∧
    delete_user db uid = (.failure, db) ∧
    toggle_user_status db uid = (.failure, db) ∧
    reset_user_password hash db uid = (.failure, db) := by
  have hnone : getActiveUser db.users uid = none := by
    rw [getActiveUser, List.find?_eq_none]
    intro u hu hcond
    simp only [Bool.and_eq_true, beq_iff_eq, Bool.not_eq_true'] at hcond
    rcases htarget u hu hcond.1.1 with h | h
    · rw [hcond.2] at h
      exact Bool.false_ne_true h
    · rw [hcond.1.2] at h
      exact Bool.false_ne_true h
  exact ⟨by rw [update_user, hnone], by rw [delete_user, hnone],
    by rw [toggle_user_status, hnone], by rw [reset_user_password, hnone]⟩

/-- Witness for C10: a database holding one admin account and one
soft-deleted account; both are rejected by all four mutations. -/
theorem C10_staff_mutations_witness :
    (update_user some ⟨[⟨1, "ADM", "Ad Min", "", true, false, true, "p"⟩,
        ⟨2, "OLD", "Old User", "", false, true, false, "q"⟩], []⟩ 1
      = (.failure, ⟨[⟨1, "ADM", "Ad Min", "", true, false, true, "p"⟩,
        ⟨2, "OLD", "Old User", "", false, true, false, "q"⟩], []⟩) ∧
     delete_user ⟨[⟨1, "ADM", "Ad Min", "", true, false, true, "p"⟩,
        ⟨2, "OLD", "Old User", "", false, true, false, "q"⟩], []⟩ 1
      = (.failure, ⟨[⟨1, "ADM", "Ad Min", "", true, false, true, "p"⟩,
        ⟨2, "OLD", "Old User", "", false, true, false, "q"⟩], []⟩) ∧
     toggle_user_status ⟨[⟨1, "ADM", "Ad Min", "", true, false, true, "p"⟩,
        ⟨2, "OLD", "Old User", "", false, true, false, "q"⟩], []⟩ 1
      = (.failure, ⟨[⟨1, "ADM", "Ad Min", "", true, false, true, "p"⟩,
        ⟨2, "OLD", "Old User", "", false, true, false, "q"⟩], []⟩) ∧
     reset_user_password id ⟨[⟨1, "ADM", "Ad Min", "", true, false, true, "p"⟩,
        ⟨2, "OLD", "Old User", "", false, true, false, "q"⟩], []⟩ 1
      = (.failure, ⟨[⟨1, "ADM", "Ad Min", "", true, false, true, "p"⟩,
        ⟨2, "OLD", "Old User", "", false, true, false, "q"⟩], []⟩)) ∧
    (update_user some ⟨[⟨1, "ADM", "Ad Min", "", true, false, true, "p"⟩,
        ⟨2, "OLD", "Old User", "", false, true, false, "q"⟩], []⟩ 2
      = (.failure, ⟨[⟨1, "ADM", "Ad Min", "", true, false, true, "p"⟩,
        ⟨2, "OLD", "Old User", "", false, true, false, "q"⟩], []⟩)) :=
  ⟨C10_staff_mutations_guarded _ 1 some id (by decide),
   (C10_staff_mutations_guarded _ 2 some id (by decide)).1⟩

/-- C5: for a non-deleted product, add-to-cart fails carrying the available
stock when the requested quantity exceeds it; otherwise it leaves the state
untouched when a cart row for the (user, product) pair already exists, and
appends exactly one new row when none exists; in either success case the
cart badge is the user's cart row count as a string below ten and the
literal `"9+"` from ten onwards. -/
theorem C5_add_to_cart_spec
    (db : DB) (uid pid : ℕ) (qty : ℚ) (newCartId : ℕ) (product : ProductR)
    (hp : db.products.find? (fun p => p.id == pid && !p.is_deleted) = some product) :
    (product.qty < qty →
        add_to_cart db uid pid qty newCartId = (.qtyExceeded product.qty, db)) ∧
    (¬ product.qty < qty →
      ∃ carts' : List CartR,
        add_to_cart db uid pid qty newCartId
          = (.added qty
              (if (carts'.filter (fun c => c.userId == uid)).length < 10
               then toString ((carts'.filter (fun c => c.userId == uid)).length)
               else "9+"),
             { db with carts := carts' }) ∧
        (db.carts.any (fun c => c.productId == product.id && c.userId == uid) = true →
            carts' = db.carts) ∧
        (db.carts.any (fun c => c.productId == product.id && c.userId == uid) = false →
            carts' = db.carts ++ [⟨newCartId, uid, product.id, qty⟩])) := by
  constructor
  · intro hlt
    simp only [add_to_cart, hp]
    rw [if_pos hlt]
  · intro hge
    refine ⟨if db.carts.any (fun c => c.productId == product.id && c.userId == uid)
        then db.carts else db.carts ++ [⟨newCartId, uid, product.id, qty⟩], ?_, ?_, ?_⟩
    · simp only [add_to_cart, hp]
      rw [if_neg hge]
    · intro hex
      rw [if_pos hex]
    · intro hex
      rw [hex]
      simp

/-- Witness for C5: a product with stock 5; a request for 10 is rejected
with the stock in the message, a request for 2 against an empty cart adds
one row and reports badge "1". -/
theorem C5_add_to_cart_witness :
    (add_to_cart ⟨[⟨1, 1, "soda", 5, 60, 100, false⟩], [], [], []⟩ 7 1 10 1
      = (.qtyExceeded 5, ⟨[⟨1, 1, "soda", 5, 60, 100, false⟩], [], [], []⟩)) ∧
    (∃ carts' : List CartR,
      add_to_cart ⟨[⟨1, 1, "soda", 5, 60, 100, false⟩], [], [], []⟩ 7 1 2 1
        = (.added 2
            (if (carts'.filter (fun c => c.userId == 7)).length < 10
             then toString ((carts'.filter (fun c => c.userId == 7)).length)
             else "9+"),
           { (⟨[⟨1, 1, "soda", 5, 60, 100, false⟩], [], [], []⟩ : DB) with carts := carts' }) ∧
      (List.any ([] : List CartR) (fun c => c.productId == 1 && c.userId == 7) = true →
          carts' = []) ∧
      (List.any ([] : List CartR) (fun c => c.productId == 1 && c.userId == 7) = false →
          carts' = [] ++ [⟨1, 7, 1, 2⟩])) :=
  ⟨(C5_add_to_cart_spec ⟨[⟨1, 1, "soda", 5, 60, 100, false⟩], [], [], []⟩ 7 1 10 1
      ⟨1, 1, "soda", 5, 60, 100, false⟩ rfl).1 (by norm_num),
   (C5_add_to_cart_spec ⟨[⟨1, 1, "soda", 5, 60, 100, false⟩], [], [], []⟩ 7 1 2 1
      ⟨1, 1, "soda", 5, 60, 100, false⟩ rfl).2 (by norm_num)⟩

/-- C3: removing an existing sale line item restores the line's quantity to
its product's stock, subtracts the line's price times quantity from the
parent sale's amount, and deletes the line; when no line of the parent sale
remains, the parent sale is deleted as well. -/
theorem C3_remove_sale_item_spec
    (db : DB) (itemId : ℕ) (item : SaleItemR) (sale : SaleR) (product : ProductR)
    (hitem : db.sale_items.find? (fun i => i.id == itemId) = some item)
    (hsale : db.sales.find? (fun s => s.id == item.saleId) = some sale)
    (hprod : findProduct db.products item.productId = some product) :
    findProduct (remove_sale_item db itemId).2.products item.productId
        = some { product with qty := product.qty + item.qty } ∧
    (remove_sale_item db itemId).2.sale_items
        = db.sale_items.filter (fun i => !(i.id == itemId)) ∧
    ((db.sale_items.filter (fun i => !(i.id == itemId))).filter
          (fun i => i.saleId == sale.id) = [] →
        (remove_sale_item db itemId).1 = .saleDeleted ∧
        (remove_sale_item db itemId).2.sales.find? (fun s => s.id == sale.id) = none) ∧
    ((db.sale_items.filter (fun i => !(i.id == itemId))).filter
          (fun i => i.saleId == sale.id) ≠ [] →
        (remove_sale_item db itemId).1 = .itemRemoved ∧
        (remove_sale_item db itemId).2.sales.find? (fun s => s.id == sale.id)
          = some { sale with amount := sale.amount - item.price * item.qty }) := by
  have hpid : product.id = item.productId := findProduct_id hprod
  have hsid : sale.id = item.saleId := find?_id (fun s : SaleR => s.id) hsale
  have hprodRaw : db.products.find? (fun x => x.id == product.id) = some product := by
    rw [hpid]
    exact hprod
  have hprodItem : db.products.find? (fun p => p.id == item.productId) = some product := hprod
  have hsaleRaw : db.sales.find? (fun s => s.id == sale.id) = some sale := by
    rw [hsid]
    exact hsale
  by_cases hempty : (db.sale_items.filter (fun i => !(i.id == itemId))).filter
      (fun i => i.saleId == sale.id) = []
  · refine ⟨?_, ?_, fun _ => ⟨?_, ?_⟩, fun hne => absurd hempty hne⟩
    · simp only [remove_sale_item, hitem, hsale, findProduct, hprodItem, hempty,
        List.isEmpty_nil, if_true, saveProduct]
      rw [← hpid]
      rw [find?_replace_same (fun p => p.id) db.products product.id
        { product with qty := product.qty + item.qty } rfl]
      rw [hprodRaw]
      rfl
    · simp only [remove_sale_item, hitem, hsale, findProduct, hprodItem, hempty,
        List.isEmpty_nil, if_true]
    · simp only [remove_sale_item, hitem, hsale, findProduct, hprodItem, hempty,
        List.isEmpty_nil, if_true]
    · simp only [remove_sale_item, hitem, hsale, findProduct, hprodItem, hempty,
        List.isEmpty_nil, if_true]
      exact find?_filter_out (fun s : SaleR => s.id) _ sale.id
  · have hfalse : ((db.sale_items.filter (fun i => !(i.id == itemId))).filter
        (fun i => i.saleId == sale.id)).isEmpty = false := by
      rw [List.isEmpty_eq_false]
      exact hempty
    refine ⟨?_, ?_, fun he => absurd he hempty, fun _ => ⟨?_, ?_⟩⟩
    · simp only [remove_sale_item, hitem, hsale, findProduct, hprodItem, hfalse,
        Bool.false_eq_true, if_false, saveProduct]
      rw [← hpid]
      rw [find?_replace_same (fun p => p.id) db.products product.id
        { product with qty := product.qty + item.qty } rfl]
      rw [hprodRaw]
      rfl
    · simp only [remove_sale_item, hitem, hsale, findProduct, hprodItem, hfalse,
        Bool.false_eq_true, if_false]
    · simp only [remove_sale_item, hitem, hsale, findProduct, hprodItem, hfalse,
        Bool.false_eq_true, if_false]
    · simp only [remove_sale_item, hitem, hsale, findProduct, hprodItem, hfalse,
        Bool.false_eq_true, if_false]
      rw [find?_replace_same (fun s => s.id) db.sales sale.id
        { sale with amount := sale.amount - item.price * item.qty } rfl]
      rw [hsaleRaw]
      rfl

/-- Witness for C3: a sale with exactly one line item; removing it restores
the product quantity from 3 to 5 and deletes the now-empty sale. -/
theorem C3_remove_sale_item_witness :
    findProduct (remove_sale_item
        ⟨[⟨1, 1, "soda", 3, 60, 100, false⟩], [],
         [⟨1, 7, 1, 200, 80, "n/a", none⟩],
         [⟨1, 1, 1, 100, 2, 80⟩]⟩ 1).2.products 1
      = some ⟨1, 1, "soda", 3 + 2, 60, 100, false⟩ ∧
    (remove_sale_item
        ⟨[⟨1, 1, "soda", 3, 60, 100, false⟩], [],
         [⟨1, 7, 1, 200, 80, "n/a", none⟩],
         [⟨1, 1, 1, 100, 2, 80⟩]⟩ 1).1 = .saleDeleted ∧
    (remove_sale_item
        ⟨[⟨1, 1, "soda", 3, 60, 100, false⟩], [],
         [⟨1, 7, 1, 200, 80, "n/a", none⟩],
         [⟨1, 1, 1, 100, 2, 80⟩]⟩ 1).2.sales.find? (fun s => s.id == 1) = none := by
  have h := C3_remove_sale_item_spec
    ⟨[⟨1, 1, "soda", 3, 60, 100, false⟩], [],
     [⟨1, 7, 1, 200, 80, "n/a", none⟩],
     [⟨1, 1, 1, 100, 2, 80⟩]⟩ 1 ⟨1, 1, 1, 100, 2, 80⟩ ⟨1, 7, 1, 200, 80, "n/a", none⟩
    ⟨1, 1, "soda", 3, 60, 100, false⟩ rfl rfl rfl
  exact ⟨h.1, (h.2.2.1 rfl).1, (h.2.2.1 rfl).2⟩

/-- Sum of the `profit` column over a list of sale line items. -/
def sumProfits (l : List SaleItemR) : ℚ :=
  (l.map (fun i => i.profit)).sum

/-- Removing the line item found by id from a list with no duplicate ids
drops exactly its profit from any filtered profit sum it belongs to. -/
theorem sumProfits_remove (l : List SaleItemR) (itemId : ℕ) (item : SaleItemR)
    (hfind : l.find? (fun i => i.id == itemId) = some item)
    (hnd : (l.map (fun i => i.id)).Nodup)
    (P : SaleItemR → Bool) (hP : P item = true) :
    sumProfits ((l.filter (fun i => !(i.id == itemId))).filter P)
      = sumProfits (l.filter P) - item.profit := by
  induction l with
  | nil => simp at hfind
  | cons h t ih =>
    simp only [List.map_cons, List.nodup_cons] at hnd
    by_cases hh : h.id = itemId
    · have hitem_eq : item = h := by
        rw [List.find?_cons_of_pos _ (by simp [hh])] at hfind
        exact (Option.some.inj hfind).symm
      subst hitem_eq
      have htail : t.filter (fun i => !(i.id == itemId)) = t := by
        rw [List.filter_eq_self]
        intro a ha
        have : a.id ≠ item.id := by
          intro he
          exact hnd.1 (List.mem_map.2 ⟨a, ha, he⟩)
        simp [hh ▸ this]
      rw [List.filter_cons_of_neg (by simp [hh]), htail,
        List.filter_cons_of_pos hP]
      simp only [sumProfits, List.map_cons, List.sum_cons]
      ring
    · have hfind' : t.find? (fun i => i.id == itemId) = some item := by
        rw [List.find?_cons_of_neg _ (by simp [hh])] at hfind
        exact hfind
      have ihh := ih hfind' hnd.2
      rw [List.filter_cons_of_pos (by simp [hh])]
      by_cases hPh : P h = true
      · rw [List.filter_cons_of_pos hPh, List.filter_cons_of_pos hPh]
        simp only [sumProfits, List.map_cons, List.sum_cons] at ihh ⊢
        rw [ihh]
        ring
      · rw [List.filter_cons_of_neg (by simpa using hPh),
          List.filter_cons_of_neg (by simpa using hPh)]
        exact ihh

/-- C9 (amended): when a sale with other remaining line items has one line
removed, the stored profit field is untouched (only the amount changes), so
if the stored profit equalled the sum of its line profits before the
removal and the removed line's profit is nonzero, the stored profit no
longer equals the sum of the remaining lines' profits. -/
theorem C9_remove_sale_item_profit_frame
    (db : DB) (itemId : ℕ) (item : SaleItemR) (sale : SaleR) (product : ProductR)
    (hitem : db.sale_items.find? (fun i => i.id == itemId) = some item)
    (hsale : db.sales.find? (fun s => s.id == item.saleId) = some sale)
    (hprod : findProduct db.products item.productId = some product)
    (hnd : (db.sale_items.map (fun i => i.id)).Nodup)
    (hremain : (db.sale_items.filter (fun i => !(i.id == itemId))).filter
        (fun i => i.saleId == sale.id) ≠ []) :
    ((remove_sale_item db itemId).2.sales.find? (fun s => s.id == sale.id)).map
        (fun s => s.profit) = some sale.profit ∧
    (sale.profit = sumProfits (db.sale_items.filter (fun i => i.saleId == sale.id)) →
     item.profit ≠ 0 →
     sumProfits ((remove_sale_item db itemId).2.sale_items.filter
        (fun i => i.saleId == sale.id)) ≠ sale.profit) := by
  have hsid : sale.id = item.saleId := find?_id (fun s : SaleR => s.id) hsale
  have hprodItem : db.products.find? (fun p => p.id == item.productId) = some product := hprod
  have hsaleRaw : db.sales.find? (fun s => s.id == sale.id) = some sale := by
    rw [hsid]
    exact hsale
  have hfalse : ((db.sale_items.filter (fun i => !(i.id == itemId))).filter
      (fun i => i.saleId == sale.id)).isEmpty = false := by
    rw [List.isEmpty_eq_false]
    exact hremain
  have hsum := sumProfits_remove db.sale_items itemId item hitem hnd
    (fun i => i.saleId == sale.id) (by simp [hsid])
  constructor
  · simp only [remove_sale_item, hitem, hsale, findProduct, hprodItem, hfalse,
      Bool.false_eq_true, if_false]
    rw [find?_replace_same (fun s => s.id) db.sales sale.id
      { sale with amount := sale.amount - item.price * item.qty } rfl]
    rw [hsaleRaw]
    rfl
  · intro hinv hnz
    simp only [remove_sale_item, hitem, hsale, findProduct, hprodItem, hfalse,
      Bool.false_eq_true, if_false]
    rw [hsum, ← hinv]
    intro h
    exact hnz (by linarith [sub_eq_self.1 h])

/-- Counterexample to C9 as stated: a sale holding two line items of zero
profit (price equal to cost).  Its stored profit equals the sum of its line
profits both before and after removing one line, so the final clause of the
claim fails at this input. -/
theorem C9_counterexample :
    ((([⟨1, 1, 1, 100, 1, 0⟩, ⟨2, 1, 1, 100, 1, 0⟩] : List SaleItemR).filter
        (fun i => i.saleId == 1)).length = 2) ∧
    (((([⟨1, 7, 1, 200, 0, "n/a", none⟩] : List SaleR).find?
        (fun s => s.id == 1)).map (fun s => s.profit))
      = some (sumProfits (([⟨1, 1, 1, 100, 1, 0⟩, ⟨2, 1, 1, 100, 1, 0⟩] :
          List SaleItemR).filter (fun i => i.saleId == 1)))) ∧
    (remove_sale_item ⟨[⟨1, 1, "soda", 3, 100, 100, false⟩], [],
        [⟨1, 7, 1, 200, 0, "n/a", none⟩],
        [⟨1, 1, 1, 100, 1, 0⟩, ⟨2, 1, 1, 100, 1, 0⟩]⟩ 1).1 = .itemRemoved ∧
    ((remove_sale_item ⟨[⟨1, 1, "soda", 3, 100, 100, false⟩], [],
        [⟨1, 7, 1, 200, 0, "n/a", none⟩],
        [⟨1, 1, 1, 100, 1, 0⟩, ⟨2, 1, 1, 100, 1, 0⟩]⟩ 1).2.sales.find?
        (fun s => s.id == 1)).map (fun s => s.profit)
      = some (sumProfits ((remove_sale_item ⟨[⟨1, 1, "soda", 3, 100, 100, false⟩], [],
        [⟨1, 7, 1, 200, 0, "n/a", none⟩],
        [⟨1, 1, 1, 100, 1, 0⟩, ⟨2, 1, 1, 100, 1, 0⟩]⟩ 1).2.sale_items.filter
        (fun i => i.saleId == 1))) := by
  refine ⟨?_, ?_, ?_, ?_⟩ <;> with_unfolding_all decide

/-- Witness for C9 at a sale with two line items of profit 40 each: after
removing one, the stored profit stays 80 while the remaining lines sum to
40. -/
theorem C9_profit_frame_witness :
    ((remove_sale_item ⟨[⟨1, 1, "soda", 3, 60, 100, false⟩], [],
        [⟨1, 7, 1, 200, 80, "n/a", none⟩],
        [⟨1, 1, 1, 100, 1, 40⟩, ⟨2, 1, 1, 100, 1, 40⟩]⟩ 1).2.sales.find?
        (fun s => s.id == 1)).map (fun s => s.profit) = some 80 ∧
    sumProfits ((remove_sale_item ⟨[⟨1, 1, "soda", 3, 60, 100, false⟩], [],
        [⟨1, 7, 1, 200, 80, "n/a", none⟩],
        [⟨1, 1, 1, 100, 1, 40⟩, ⟨2, 1, 1, 100, 1, 40⟩]⟩ 1).2.sale_items.filter
        (fun i => i.saleId == 1)) ≠ 80 := by
  have h := C9_remove_sale_item_profit_frame
    ⟨[⟨1, 1, "soda", 3, 60, 100, false⟩], [],
     [⟨1, 7, 1, 200, 80, "n/a", none⟩],
     [⟨1, 1, 1, 100, 1, 40⟩, ⟨2, 1, 1, 100, 1, 40⟩]⟩ 1 ⟨1, 1, 1, 100, 1, 40⟩
    ⟨1, 7, 1, 200, 80, "n/a", none⟩ ⟨1, 1, "soda", 3, 60, 100, false⟩
    rfl rfl rfl (by decide) (by with_unfolding_all decide)
  exact ⟨h.1, h.2 (by with_unfolding_all decide) (by norm_num)⟩

/-- Resolving a cart keeps the cart lines themselves as the first
components, in order. -/
theorem resolveCart_fst {ps : List ProductR} {l : List CartR}
    {resolved : List (CartR × ProductR)}
    (h : resolveCart ps l = some resolved) : resolved.map Prod.fst = l := by
  induction l generalizing resolved with
  | nil =>
    simp only [resolveCart, Option.some.injEq] at h
    subst h
    rfl
  | cons c rest ih =>
    simp only [resolveCart] at h
    cases hf : findProduct ps c.productId <;> rw [hf] at h
    · simp at h
    · cases hr : resolveCart ps rest <;> rw [hr] at h
      · simp at h
      · simp only [Option.some.injEq] at h
        subst h
        simp [ih hr]

/-- Every resolved pair comes from a successful product lookup of its cart
line. -/
theorem resolveCart_mem {ps : List ProductR} {l : List CartR}
    {resolved : List (CartR × ProductR)}
    (h : resolveCart ps l = some resolved) :
    ∀ x ∈ resolved, findProduct ps x.1.productId = some x.2 := by
  induction l generalizing resolved with
  | nil =>
    simp only [resolveCart, Option.some.injEq] at h
    subst h
    intro x hx
    simp at hx
  | cons c rest ih =>
    simp only [resolveCart] at h
    cases hf : findProduct ps c.productId <;> rw [hf] at h
    · simp at h
    · cases hr : resolveCart ps rest <;> rw [hr] at h
      · simp at h
      · simp only [Option.some.injEq] at h
        subst h
        intro x hx
        rcases List.mem_cons.1 hx with rfl | hx'
        · exact hf
        · exact ih hr x hx'

/-- The stock-decrement loop leaves products untouched whose id is sold by
no processed line. -/
theorem applySale_find_of_not_mem (l : List (CartR × ProductR)) (ps : List ProductR)
    (pid : ℕ) (h : ∀ x ∈ l, x.2.id ≠ pid) :
    findProduct (applySale ps l) pid = findProduct ps pid := by
  induction l generalizing ps with
  | nil => rfl
  | cons y rest ih =>
    have hstep : applySale ps (y :: rest)
        = applySale (saveProduct ps { y.2 with qty := y.2.qty - y.1.qty }) rest := rfl
    rw [hstep, ih _ (fun z hz => h z (List.mem_cons_of_mem _ hz))]
    exact find?_replace_other (fun p : ProductR => p.id) ps y.2.id pid
      { y.2 with qty := y.2.qty - y.1.qty } rfl
      (Ne.symm (h y (List.mem_cons_self _ _)))

/-- When the processed lines sell pairwise distinct products, the
stock-decrement loop sets each sold product's quantity to its snapshot
minus the line quantity. -/
theorem applySale_find_of_mem (l : List (CartR × ProductR)) (ps : List ProductR)
    (hnd : (l.map (fun x => x.2.id)).Nodup) :
    ∀ x ∈ l, findProduct (applySale ps l) x.2.id
      = (findProduct ps x.2.id).map (fun _ => { x.2 with qty := x.2.qty - x.1.qty }) := by
  induction l generalizing ps with
  | nil =>
    intro x hx
    simp at hx
  | cons y rest ih =>
    simp only [List.map_cons, List.nodup_cons] at hnd
    intro x hx
    rcases List.mem_cons.1 hx with rfl | hx'
    · have hstep : applySale ps (x :: rest)
          = applySale (saveProduct ps { x.2 with qty := x.2.qty - x.1.qty }) rest := rfl
      rw [hstep]
      rw [applySale_find_of_not_mem rest _ x.2.id
        (fun z hz hzeq => hnd.1 (List.mem_map.2 ⟨z, hz, hzeq⟩))]
      exact find?_replace_same (fun p : ProductR => p.id) ps x.2.id
        { x.2 with qty := x.2.qty - x.1.qty } rfl
    · have hstep : applySale ps (y :: rest)
          = applySale (saveProduct ps { y.2 with qty := y.2.qty - y.1.qty }) rest := rfl
      rw [hstep]
      rw [ih _ hnd.2 x hx']
      have hfp : findProduct (saveProduct ps { y.2 with qty := y.2.qty - y.1.qty }) x.2.id
          = findProduct ps x.2.id :=
        find?_replace_other (fun p : ProductR => p.id) ps y.2.id x.2.id
          { y.2 with qty := y.2.qty - y.1.qty } rfl
          (fun hEq => hnd.1 (List.mem_map.2 ⟨x, hx', hEq⟩))
      rw [hfp]

/-- C1: for a non-empty single-shop cart whose every line is within stock
and whose lines sell pairwise distinct products, checkout succeeds: it
creates exactly one Sales header with amount `Σ price×qty`, profit
`Σ (price−cost)×qty`, customer `"n/a"` when the trimmed customer string is
blank, one Sale_items row per cart line, decrements each sold product's
stock by the sold quantity, and deletes the user's cart rows. -/
theorem C1_checkout_success
    (db : DB) (uid saleId itemBase : ℕ) (customer comment : String)
    (resolved : List (CartR × ProductR))
    (hres : resolveCart db.products (db.carts.filter (fun c => c.userId == uid))
      = some resolved)
    (hne : resolved ≠ [])
    (hshop : (cartShops resolved).length ≤ 1)
    (hstock : ∀ x ∈ resolved, x.1.qty ≤ x.2.qty)
    (hndc : (resolved.map (fun x => x.2.id)).Nodup) :
    checkout db uid saleId itemBase customer comment
      = (.ok,
         { products := applySale db.products resolved,
           carts := db.carts.filter (fun c => !(c.userId == uid)),
           sales := db.sales
             ++ [{ id := saleId, userId := uid, shopId := (cartShops resolved).headD 0,
                   amount := cartAmount resolved, profit := cartProfit resolved,
                   customer := if customer.trim = "" then "n/a" else customer.trim,
                   comment := if comment.trim = "" then none else some comment.trim }],
           sale_items := db.sale_items ++ mkSaleItems saleId itemBase resolved }) ∧
    (∀ x ∈ resolved,
        findProduct (applySale db.products resolved) x.2.id
          = some { x.2 with qty := x.2.qty - x.1.qty }) := by
  have hfull_ne : db.carts.filter (fun c => c.userId == uid) ≠ [] := by
    intro he
    rw [he] at hres
    simp only [resolveCart, Option.some.injEq] at hres
    exact hne hres.symm
  have hfe : (db.carts.filter (fun c => c.userId == uid)).isEmpty = false := by
    rw [List.isEmpty_eq_false]
    exact hfull_ne
  have hshort : shortNames resolved = [] := by
    unfold shortNames
    rw [List.map_eq_nil_iff, List.filter_eq_nil_iff]
    intro x hx
    simp [not_lt.2 (hstock x hx)]
  constructor
  · simp only [checkout, hfe, Bool.false_eq_true, if_false, hres,
      if_neg (not_lt.2 hshop), hshort, List.isEmpty_nil, Bool.not_true]
  · intro x hx
    have hmem := resolveCart_mem hres x hx
    have hfind : findProduct db.products x.2.id = some x.2 := by
      rw [findProduct_id hmem]
      exact hmem
    rw [applySale_find_of_mem resolved db.products hndc x hx, hfind]
    rfl

/-- Witness for C1 at the spec's happy path: one cart line, stock 5,
quantity 2, price 100, cost 60; checkout yields one header (amount 200,
profit 80, customer "n/a"), one line item, stock 3, empty cart. -/
theorem C1_checkout_witness :
    checkout ⟨[⟨1, 1, "soda", 5, 60, 100, false⟩], [⟨1, 7, 1, 2⟩], [], []⟩ 7 1 1 "" ""
      = (.ok, ⟨[⟨1, 1, "soda", 3, 60, 100, false⟩], [],
          [⟨1, 7, 1, 200, 80, "n/a", none⟩], [⟨1, 1, 1, 100, 2, 80⟩]⟩) := by
  have h := C1_checkout_success
    ⟨[⟨1, 1, "soda", 5, 60, 100, false⟩], [⟨1, 7, 1, 2⟩], [], []⟩ 7 1 1 "" ""
    [(⟨1, 7, 1, 2⟩, ⟨1, 1, "soda", 5, 60, 100, false⟩)]
    rfl (by decide) (by decide) (by with_unfolding_all decide) (by decide)
  exact h.1.trans (by with_unfolding_all decide)

/-- C2: checkout fails and leaves the whole state unchanged when the user's
cart is empty (`emptyCart`), when the cart's products span more than one
shop (`notSameShop`), or when, within one shop, some line exceeds its
product's stock, in which case the failure names every short product in
cart order; no Sales header is created in any of these cases. -/
theorem C2_checkout_guards
    (db : DB) (uid saleId itemBase : ℕ) (customer comment : String)
    (resolved : List (CartR × ProductR))
    (hres : resolveCart db.products (db.carts.filter (fun c => c.userId == uid))
      = some resolved) :
    ((db.carts.filter (fun c => c.userId == uid)) = [] →
        checkout db uid saleId itemBase customer comment = (.emptyCart, db)) ∧
    (1 < (cartShops resolved).length →
        checkout db uid saleId itemBase customer comment = (.notSameShop, db)) ∧
    ((cartShops resolved).length ≤ 1 → shortNames resolved ≠ [] →
        checkout db uid saleId itemBase customer comment
          = (.notEnoughStock (shortNames resolved), db)) ∧
    shortNames resolved
      = (resolved.filter (fun x => x.2.qty < x.1.qty)).map (fun x => x.2.name) := by
  refine ⟨?_, ?_, ?_, rfl⟩
  · intro hemp
    simp only [checkout, hemp, List.isEmpty_nil, if_true]
  · intro hgt
    have hne : resolved ≠ [] := by
      intro he
      rw [he] at hgt
      simp [cartShops] at hgt
    have hfull_ne : db.carts.filter (fun c => c.userId == uid) ≠ [] := by
      intro he
      rw [he] at hres
      simp only [resolveCart, Option.some.injEq] at hres
      exact hne hres.symm
    have hfe : (db.carts.filter (fun c => c.userId == uid)).isEmpty = false := by
      rw [List.isEmpty_eq_false]
      exact hfull_ne
    simp only [checkout, hfe, Bool.false_eq_true, if_false, hres, if_pos hgt]
  · intro hle hshort
    have hne : resolved ≠ [] := by
      intro he
      rw [he] at hshort
      simp [shortNames] at hshort
    have hfull_ne : db.carts.filter (fun c => c.userId == uid) ≠ [] := by
      intro he
      rw [he] at hres
      simp only [resolveCart, Option.some.injEq] at hres
      exact hne hres.symm
    have hfe : (db.carts.filter (fun c => c.userId == uid)).isEmpty = false := by
      rw [List.isEmpty_eq_false]
      exact hfull_ne
    have hse : (shortNames resolved).isEmpty = false := by
      rw [List.isEmpty_eq_false]
      exact hshort
    simp only [checkout, hfe, Bool.false_eq_true, if_false, hres,
      if_neg (not_lt.2 hle), hse, Bool.not_false, if_true]

/-- Witness for C2 at three concrete databases: an empty cart, a two-shop
cart, and a cart requesting 10 units of a product with 5 in stock (the
failure names the product and the state is returned unchanged). -/
theorem C2_checkout_witness :
    checkout ⟨[⟨1, 1, "soda", 5, 60, 100, false⟩], [], [], []⟩ 7 1 1 "" ""
      = (.emptyCart, ⟨[⟨1, 1, "soda", 5, 60, 100, false⟩], [], [], []⟩) ∧
    checkout ⟨[⟨1, 1, "soda", 5, 60, 100, false⟩, ⟨2, 2, "maji", 5, 30, 50, false⟩],
        [⟨1, 7, 1, 1⟩, ⟨2, 7, 2, 1⟩], [], []⟩ 7 1 1 "" ""
      = (.notSameShop, ⟨[⟨1, 1, "soda", 5, 60, 100, false⟩,
          ⟨2, 2, "maji", 5, 30, 50, false⟩],
          [⟨1, 7, 1, 1⟩, ⟨2, 7, 2, 1⟩], [], []⟩) ∧
    checkout ⟨[⟨1, 1, "soda", 5, 60, 100, false⟩], [⟨1, 7, 1, 10⟩], [], []⟩ 7 1 1 "" ""
      = (.notEnoughStock ["soda"],
          ⟨[⟨1, 1, "soda", 5, 60, 100, false⟩], [⟨1, 7, 1, 10⟩], [], []⟩) := by
  refine ⟨?_, ?_, ?_⟩
  · exact (C2_checkout_guards ⟨[⟨1, 1, "soda", 5, 60, 100, false⟩], [], [], []⟩
      7 1 1 "" "" [] rfl).1 rfl
  · exact (C2_checkout_guards ⟨[⟨1, 1, "soda", 5, 60, 100, false⟩,
        ⟨2, 2, "maji", 5, 30, 50, false⟩], [⟨1, 7, 1, 1⟩, ⟨2, 7, 2, 1⟩], [], []⟩
      7 1 1 "" ""
      [(⟨1, 7, 1, 1⟩, ⟨1, 1, "soda", 5, 60, 100, false⟩),
       (⟨2, 7, 2, 1⟩, ⟨2, 2, "maji", 5, 30, 50, false⟩)] rfl).2.1 (by decide)
  · have h := (C2_checkout_guards ⟨[⟨1, 1, "soda", 5, 60, 100, false⟩],
        [⟨1, 7, 1, 10⟩], [], []⟩ 7 1 1 "" ""
      [(⟨1, 7, 1, 10⟩, ⟨1, 1, "soda", 5, 60, 100, false⟩)] rfl).2.2.1
      (by decide) (by with_unfolding_all decide)
    exact h.trans (by with_unfolding_all decide)

/-- Stripping trailing characters only removes characters. -/
theorem mem_rstripChar {l : List Char} {c a : Char} (h : a ∈ rstripChar l c) :
    a ∈ l := by
  unfold rstripChar at h
  rw [List.mem_reverse] at h
  exact List.mem_reverse.1 ((List.dropWhile_sublist _).subset h)

/-- Every entry produced by the digit extractor is a decimal digit. -/
theorem natDigitsRev_lt : ∀ fuel n : ℕ, ∀ d ∈ natDigitsRev fuel n, d < 10 := by
  intro fuel
  induction fuel with
  | zero =>
    intro n d hd
    simp [natDigitsRev] at hd
  | succ f ih =>
    intro n d hd
    cases n with
    | zero => simp [natDigitsRev] at hd
    | succ m =>
      simp only [natDigitsRev, List.mem_cons] at hd
      rcases hd with rfl | hd
      · exact Nat.mod_lt _ (by norm_num)
      · exact ih _ d hd

/-- Digit renderings never contain a comma. -/
theorem natPlainChars_ne_comma {n : ℕ} {a : Char} (h : a ∈ natPlainChars n) :
    a ≠ ',' := by
  unfold natPlainChars at h
  by_cases h0 : n = 0
  · rw [if_pos h0] at h
    rw [List.mem_singleton] at h
    subst h
    decide
  · rw [if_neg h0, List.mem_map] at h
    obtain ⟨d, hd, rfl⟩ := h
    have hlt : d < 10 := natDigitsRev_lt n n d (List.mem_reverse.1 hd)
    exact (by decide : ∀ d, d < 10 → Nat.digitChar d ≠ ',') d hlt

/-- C6 (amended): the formatter shows thousands separators exactly on the
whole-number path (`f"{int(value):,}"`); non-whole values are rendered by
the `:.1f` / `:.2f` paths, which never contain a comma; the spec's
examples hold with the decimal outputs carrying no separators. -/
theorem C6_format_number_spec :
    (∀ z : ℤ, format_number (z : ℚ) = intCommaStr z) ∧
    (∀ v : ℚ, v.den ≠ 1 → ',' ∉ (format_number v).data) ∧
    format_number 1000 = "1,000" ∧
    format_number (3001/2) = "1500.5" ∧
    format_number 1500 = "1,500" ∧
    format_number (150023/100) = "1500.23" := by
  refine ⟨?_, ?_, ?_, ?_, ?_, ?_⟩
  · intro z
    simp [format_number, Rat.den_intCast, Rat.num_intCast]
  · intro v hv
    unfold format_number
    rw [if_neg hv]
    by_cases h10 : (10 * v).den = 1
    · rw [if_pos h10]
      intro hmem
      have hl := mem_rstripChar (mem_rstripChar hmem)
      rcases List.mem_append.1 hl with h1 | h2
      · rcases List.mem_append.1 h1 with ha | hb
        · by_cases hvn : v < 0
          · rw [if_pos hvn, List.mem_singleton] at ha
            exact absurd ha (by decide)
          · rw [if_neg hvn] at ha
            simp at ha
        · exact natPlainChars_ne_comma hb rfl
      · rcases List.mem_cons.1 h2 with hdot | hdigit
        · exact absurd hdot (by decide)
        · exact natPlainChars_ne_comma hdigit rfl
    · rw [if_neg h10]
      intro hmem
      have hl := mem_rstripChar (mem_rstripChar hmem)
      rcases List.mem_append.1 hl with h1 | h2
      · rcases List.mem_append.1 h1 with ha | hb
        · by_cases hvn : v < 0
          · rw [if_pos hvn, List.mem_singleton] at ha
            exact absurd ha (by decide)
          · rw [if_neg hvn] at ha
            simp at ha
        · exact natPlainChars_ne_comma hb rfl
      · rcases List.mem_cons.1 h2 with hdot | hdigit
        · exact absurd hdot (by decide)
        · rcases List.mem_cons.1 hdigit with he | he'
          · have : (roundHalfEven (100 * |v|)).natAbs / 10 % 10 < 10 :=
              Nat.mod_lt _ (by norm_num)
            exact absurd he
              ((by decide : ∀ d, d < 10 → ¬ (',' = Nat.digitChar d)) _ this)
          · rcases List.mem_singleton.1 he' with he''
            have : (roundHalfEven (100 * |v|)).natAbs % 10 < 10 :=
              Nat.mod_lt _ (by norm_num)
            exact absurd he''
              ((by decide : ∀ d, d < 10 → ¬ (',' = Nat.digitChar d)) _ this)
  · with_unfolding_all decide
  · with_unfolding_all decide
  · with_unfolding_all decide
  · with_unfolding_all decide

/-- Counterexample to C6 as stated: the one-decimal path renders 1500.50
as `"1500.5"`, without the thousands separator the claim promises. -/
theorem C6_format_number_counterexample :
    format_number (3001/2) = "1500.5" ∧ ¬ format_number (3001/2) = "1,500.5" := by
  constructor <;> with_unfolding_all decide

/-- Witness for C6 at concrete inputs of both parts. -/
theorem C6_format_number_witness :
    format_number ((1000 : ℤ) : ℚ) = intCommaStr 1000 ∧
    ',' ∉ (format_number (3001/2)).data :=
  ⟨C6_format_number_spec.1 1000,
   C6_format_number_spec.2.1 (3001/2) (by with_unfolding_all decide)⟩

/-- A list's optional last element is one of its members. -/
theorem mem_of_getLast? {α : Type} {l : List α} {a : α} (h : l.getLast? = some a) :
    a ∈ l := by
  induction l with
  | nil => simp at h
  | cons x t ih =>
    cases t with
    | nil =>
      simp only [List.getLast?_singleton, Option.some.injEq] at h
      subst h
      exact List.mem_singleton.2 rfl
    | cons y u =>
      rw [List.getLast?_cons_cons] at h
      exact List.mem_cons_of_mem _ (ih h)

/-- Removing the first dot keeps every non-dot member. -/
theorem mem_removeFirstDot {l : List Char} {a : Char} (ha : a ∈ l) (hne : a ≠ '.') :
    a ∈ removeFirstDot l := by
  induction l with
  | nil => simp at ha
  | cons c rest ih =>
    by_cases hc : c = '.'
    · subst hc
      have hred : removeFirstDot ('.' :: rest) = rest := by
        simp [removeFirstDot]
      rw [hred]
      rcases List.mem_cons.1 ha with rfl | h'
      · exact absurd rfl hne
      · exact h'
    · have hred : removeFirstDot (c :: rest) = c :: removeFirstDot rest := by
        simp [removeFirstDot, hc]
      rw [hred]
      rcases List.mem_cons.1 ha with rfl | h'
      · exact List.mem_cons_self _ _
      · exact List.mem_cons_of_mem _ (ih h')

/-- C7 (amended): against a row whose stringified field value parses as the
number `v`, the numeric column filter matches `"value ≤ bound"` for a
search of a minus sign followed by digits (commas stripped), `"value ≥
bound"` for digits followed by a minus sign, and numeric equality for a
plain integer or decimal; a numeric-kind search string matching none of
the three sub-forms falls back to the case-insensitive substring test of
the final `return` statement rather than matching no row. -/
theorem C7_filter_items_numeric_spec
    (columnValue columnSearch : String) (v : ℚ)
    (hv : parseDecimal columnValue.toLower.data = some v) :
    (∀ t : List Char, columnSearch.data = '-' :: t →
        allDigits (t.filter (fun c => !(c == ','))) = true →
        filter_items columnValue columnSearch .numeric
          = decide (v ≤ (digitsVal (t.filter (fun c => !(c == ','))) : ℚ))) ∧
    (∀ t : List Char, columnSearch.data = t ++ ['-'] →
        allDigits (t.filter (fun c => !(c == ','))) = true →
        filter_items columnValue columnSearch .numeric
          = decide ((digitsVal (t.filter (fun c => !(c == ','))) : ℚ) ≤ v)) ∧
    (eqCond columnSearch.data = true →
        ∀ t : ℚ,
          parseDecimal (columnSearch.data.filter (fun c => !(c == ','))) = some t →
          filter_items columnValue columnSearch .numeric = decide (v = t)) ∧
    (leCond columnSearch.data = false → geCond columnSearch.data = false →
        eqCond columnSearch.data = false →
        filter_items columnValue columnSearch .numeric
          = containsSub columnSearch.toLower.data columnValue.toLower.data) := by
  have hcv_ne : columnValue.toLower.data.isEmpty = false := by
    cases hd : columnValue.toLower.data with
    | nil =>
      rw [hd] at hv
      exact absurd hv (by intro h; exact Option.noConfusion h)
    | cons c rest => rfl
  have hmatch : (if columnValue.toLower.data.isEmpty then some (0 : ℚ)
      else parseDecimal columnValue.toLower.data) = some v := by
    simp [hcv_ne, hv]
  refine ⟨?_, ?_, ?_, ?_⟩
  · intro t hts hdig
    have hle : leCond columnSearch.data = true := by
      rw [hts]
      simp [leCond, hdig]
    simp only [filter_items, hmatch, hle, if_true]
    rw [hts]
    rfl
  · intro t hts hdig
    have hall : ∀ a ∈ t.filter (fun c => !(c == ',')), a.isDigit = true := by
      have h2 := hdig
      simp only [allDigits, Bool.and_eq_true] at h2
      intro a ha
      exact List.all_eq_true.1 h2.2 a ha
    have ht_ne : t ≠ [] := by
      intro he
      subst he
      simp [allDigits] at hdig
    have hnot_minus : ∀ a ∈ t, a ≠ '-' := by
      intro a ha hea
      subst hea
      have hmem : '-' ∈ t.filter (fun c => !(c == ',')) :=
        List.mem_filter.2 ⟨ha, by decide⟩
      exact absurd (hall '-' hmem) (by decide)
    have hle_false : leCond columnSearch.data = false := by
      rw [hts]
      cases t with
      | nil => exact absurd rfl ht_ne
      | cons c rest =>
        have hc : c ≠ '-' := hnot_minus c (List.mem_cons_self _ _)
        simp [leCond, hc]
    have hdl : (t ++ ['-']).dropLast = t := by simp
    have hge : geCond columnSearch.data = true := by
      rw [hts]
      unfold geCond
      rw [hdl]
      simp [hdig]
    simp only [filter_items, hmatch, hle_false, Bool.false_eq_true, if_false,
      hge, if_true]
    rw [hts, hdl]
  · intro heq t hpt
    have hnd : '-' ∉ columnSearch.data := by
      intro hmem
      have h1 : '-' ∈ columnSearch.data.filter (fun c => !(c == ',')) :=
        List.mem_filter.2 ⟨hmem, by decide⟩
      have h2 : '-' ∈ removeFirstDot (columnSearch.data.filter (fun c => !(c == ','))) :=
        mem_removeFirstDot h1 (by decide)
      have h3 := heq
      simp only [eqCond, allDigits, Bool.and_eq_true] at h3
      exact absurd (List.all_eq_true.1 h3.2 '-' h2) (by decide)
    have hle_false : leCond columnSearch.data = false := by
      unfold leCond
      cases hd : columnSearch.data with
      | nil => rfl
      | cons c rest =>
        have hc : c ≠ '-' := by
          intro he
          rw [hd] at hnd
          exact hnd (he ▸ List.mem_cons_self c rest)
        simp [hc]
    have hge_false : geCond columnSearch.data = false := by
      unfold geCond
      cases hlast : columnSearch.data.getLast? with
      | none => rfl
      | some a =>
        have ha := mem_of_getLast? hlast
        have hane : a ≠ '-' := fun he => hnd (he ▸ ha)
        simp [hane]
    simp only [filter_items, hmatch, hle_false, hge_false, Bool.false_eq_true,
      if_false, heq, if_true, hpt]
  · intro h1 h2 h3
    simp only [filter_items, hmatch, h1, h2, h3, Bool.false_eq_true, if_false]

/-- Counterexample to C7 as stated: the search string `"."` matches none of
the three numeric sub-forms, yet it matches the row whose field value is
`"1.5"` through the substring fallback, so malformed numeric input does not
always yield no match. -/
theorem C7_filter_items_counterexample :
    filter_items "1.5" "." .numeric = true ∧
    leCond (String.data ".") = false ∧
    geCond (String.data ".") = false ∧
    eqCond (String.data ".") = false := by
  refine ⟨?_, ?_, ?_, ?_⟩ <;> with_unfolding_all decide

/-- Witness for C7 at the spec's concrete filter cases over values parsed
from row strings. -/
theorem C7_filter_items_witness :
    filter_items "150" "100-" .numeric = true ∧
    filter_items "50" "-100" .numeric = true ∧
    filter_items "100" "100" .numeric = true ∧
    filter_items "150" "100" .numeric = false := by
  refine ⟨?_, ?_, ?_, ?_⟩
  · exact ((C7_filter_items_numeric_spec "150" "100-" 150
      (by with_unfolding_all decide)).2.1 ['1', '0', '0'] (by decide)
      (by decide)).trans (by with_unfolding_all decide)
  · exact ((C7_filter_items_numeric_spec "50" "-100" 50
      (by with_unfolding_all decide)).1 ['1', '0', '0'] (by decide)
      (by decide)).trans (by with_unfolding_all decide)
  · exact ((C7_filter_items_numeric_spec "100" "100" 100
      (by with_unfolding_all decide)).2.2.1 (by decide) 100
      (by with_unfolding_all decide)).trans (by with_unfolding_all decide)
  · exact ((C7_filter_items_numeric_spec "150" "100" 150
      (by with_unfolding_all decide)).2.2.1 (by decide) 100
      (by with_unfolding_all decide)).trans (by with_unfolding_all decide)

end MiamalaFrank
